import Mathlib

/-!
Shallow embedding of the NeuroInsights mock-EEG analytics core
(backend/app/core/mock_data/patterns.py, generators.py and
backend/app/services/data_service.py), with theorems settling the
specification claims about signal generation, state distribution,
cognitive scoring, aggregation, activity segmentation and session
building.

Real-valued quantities are modelled as rationals.  The random draws of
the generators (numpy Gaussian samples, uniform choices of the random
module) are explicit function parameters, so a theorem quantified over
those parameters covers every possible random outcome, and a concrete
choice of parameters exhibits one particular run.
-/

namespace NeuroInsights

/-- Python round-half-to-even on rationals (builtin round with no ndigits). -/
def pyRound (q : ℚ) : ℤ :=
  if q - ⌊q⌋ < 1/2 then ⌊q⌋
  else if 1/2 < q - ⌊q⌋ then ⌊q⌋ + 1
  else if ⌊q⌋ % 2 = 0 then ⌊q⌋ else ⌊q⌋ + 1

/-- Python round(x, 1). -/
def roundTo1 (q : ℚ) : ℚ := (pyRound (q * 10) : ℚ) / 10

/-- Python round(x, 2). -/
def roundTo2 (q : ℚ) : ℚ := (pyRound (q * 100) : ℚ) / 100

/-- Python int(): truncation toward zero. -/
def pyInt (q : ℚ) : ℤ := if 0 ≤ q then ⌊q⌋ else ⌈q⌉

theorem pyRound_sub_le (q : ℚ) : |(pyRound q : ℚ) - q| ≤ 1/2 := by
  have h0 : (⌊q⌋ : ℚ) ≤ q := Int.floor_le q
  have h1 : q < ⌊q⌋ + 1 := Int.lt_floor_add_one q
  unfold pyRound
  split_ifs with hf hg hd
  · rw [abs_le]; constructor <;> linarith
  · have hf' : (1:ℚ)/2 ≤ q - ⌊q⌋ := not_lt.mp hf
    rw [abs_le]; constructor <;> push_cast <;> linarith
  · have hf' : (1:ℚ)/2 ≤ q - ⌊q⌋ := not_lt.mp hf
    have hg' : q - ⌊q⌋ ≤ 1/2 := not_lt.mp hg
    rw [abs_le]; constructor <;> linarith
  · have hf' : (1:ℚ)/2 ≤ q - ⌊q⌋ := not_lt.mp hf
    have hg' : q - ⌊q⌋ ≤ 1/2 := not_lt.mp hg
    rw [abs_le]; constructor <;> push_cast <;> linarith

theorem pyRound_mem (q : ℚ) (a b : ℤ) (ha : (a : ℚ) ≤ q) (hb : q ≤ (b : ℚ)) :
    a ≤ pyRound q ∧ pyRound q ≤ b := by
  have h := abs_le.mp (pyRound_sub_le q)
  have hl : (a : ℚ) - 1 < (pyRound q : ℚ) := by linarith
  have hr : (pyRound q : ℚ) < (b : ℚ) + 1 := by linarith
  have hl2 : a - 1 < pyRound q := by exact_mod_cast hl
  have hr2 : pyRound q < b + 1 := by exact_mod_cast hr
  omega

theorem roundTo1_mem (x : ℚ) (h0 : 0 ≤ x) (h1 : x ≤ 100) :
    0 ≤ roundTo1 x ∧ roundTo1 x ≤ 100 := by
  have h := pyRound_mem (x * 10) 0 1000 (by push_cast; linarith) (by push_cast; linarith)
  have hl : (0 : ℚ) ≤ (pyRound (x * 10) : ℚ) := by exact_mod_cast h.1
  have hr : (pyRound (x * 10) : ℚ) ≤ 1000 := by exact_mod_cast h.2
  unfold roundTo1
  constructor <;> linarith

theorem roundTo1_err (x : ℚ) : |roundTo1 x - x| ≤ 1/20 := by
  have h := abs_le.mp (pyRound_sub_le (x * 10))
  rw [abs_le]
  unfold roundTo1
  constructor <;> [linarith; linarith]

theorem roundTo2_mem (x : ℚ) (h0 : 1/2 ≤ x) (h1 : x ≤ 1) :
    1/2 ≤ roundTo2 x ∧ roundTo2 x ≤ 1 := by
  have h := pyRound_mem (x * 100) 50 100 (by push_cast; linarith) (by push_cast; linarith)
  have hl : (50 : ℚ) ≤ (pyRound (x * 100) : ℚ) := by exact_mod_cast h.1
  have hr : (pyRound (x * 100) : ℚ) ≤ 100 := by exact_mod_cast h.2
  unfold roundTo2
  constructor <;> linarith

/-! The state catalog (patterns.py COGNITIVE_STATES): five target band
intensities per cognitive state plus the optional fluctuation flag.
The description and typical_duration entries are omitted because no
code in the repository reads them. -/

/-- The five EEG frequency bands (keys of patterns.py FREQUENCY_BANDS). -/
inductive Band where
  | delta | theta | alpha | beta | gamma
deriving DecidableEq, Repr

/-- One entry of patterns.py COGNITIVE_STATES. -/
structure StatePattern where
  delta : ℚ
  theta : ℚ
  alpha : ℚ
  beta : ℚ
  gamma : ℚ
  fluctuation : Bool := false
deriving DecidableEq, Repr

instance : Inhabited StatePattern :=
  ⟨{ delta := 0, theta := 0, alpha := 0, beta := 0, gamma := 0 }⟩

def bandVal (p : StatePattern) : Band → ℚ
  | .delta => p.delta
  | .theta => p.theta
  | .alpha => p.alpha
  | .beta => p.beta
  | .gamma => p.gamma

def deepFocusPattern : StatePattern :=
  { delta := 0.1, theta := 0.2, alpha := 0.15, beta := 0.75, gamma := 0.55 }

def relaxedPattern : StatePattern :=
  { delta := 0.15, theta := 0.4, alpha := 0.8, beta := 0.25, gamma := 0.2 }

def stressedPattern : StatePattern :=
  { delta := 0.1, theta := 0.15, alpha := 0.1, beta := 0.9, gamma := 0.4 }

def creativeFlowPattern : StatePattern :=
  { delta := 0.15, theta := 0.7, alpha := 0.65, beta := 0.45, gamma := 0.5 }

def drowsyPattern : StatePattern :=
  { delta := 0.4, theta := 0.75, alpha := 0.45, beta := 0.2, gamma := 0.15 }

def distractedPattern : StatePattern :=
  { delta := 0.2, theta := 0.35, alpha := 0.4, beta := 0.5, gamma := 0.3, fluctuation := true }

def neutralPattern : StatePattern :=
  { delta := 0.25, theta := 0.35, alpha := 0.45, beta := 0.4, gamma := 0.3 }

def meditativeDeepPattern : StatePattern :=
  { delta := 0.3, theta := 0.8, alpha := 0.75, beta := 0.15, gamma := 0.25 }

/-- patterns.py COGNITIVE_STATES, in source order. -/
def cognitiveStatesList : List (String × StatePattern) :=
  [("deep_focus", deepFocusPattern), ("relaxed", relaxedPattern),
   ("stressed", stressedPattern), ("creative_flow", creativeFlowPattern),
   ("drowsy", drowsyPattern), ("distracted", distractedPattern),
   ("neutral", neutralPattern), ("meditative_deep", meditativeDeepPattern)]

/-- Dictionary lookup COGNITIVE_STATES[state]; all call sites in the
source pass validated keys, so the default is never reached there. -/
def statePatternOf (s : String) : StatePattern :=
  (cognitiveStatesList.lookup s).getD default

/-! The signal generator (generators.py _generate_state_data and
_calculate_confidence).  bias is the per-user baseline_variation,
noise the per-band Gaussian sample of line 146, fluctDraw the extra
Gaussian sample of line 152. -/

def clamp01 (x : ℚ) : ℚ := max 0 (min 1 x)

/-- base value times baseline variation, plus noise, clamped (lines 139-147). -/
def noisyVal (p : StatePattern) (bias noise : Band → ℚ) (b : Band) : ℚ :=
  clamp01 (bandVal p b * bias b + noise b)

/-- extra fluctuation for states flagged fluctuation=True (lines 150-153). -/
def fluctVal (p : StatePattern) (bias noise fluctDraw : Band → ℚ) (b : Band) : ℚ :=
  if p.fluctuation then clamp01 (noisyVal p bias noise b + fluctDraw b)
  else noisyVal p bias noise b

/-- sum(noisy_values.values()) at line 156. -/
def bandTotal (f : Band → ℚ) : ℚ :=
  f .delta + f .theta + f .alpha + f .beta + f .gamma

/-- The renormalisation of lines 156-159: each value is divided by the
total and multiplied by len(noisy_values) * 0.4 = 5 * 0.4; the division
is skipped when the total is not positive. -/
def generateStateData (p : StatePattern) (bias noise fluctDraw : Band → ℚ) (b : Band) : ℚ :=
  if 0 < bandTotal (fluctVal p bias noise fluctDraw) then
    fluctVal p bias noise fluctDraw b / bandTotal (fluctVal p bias noise fluctDraw) * 5 * 0.4
  else fluctVal p bias noise fluctDraw b

/-- generators.py _calculate_confidence: mean absolute difference of the
(renormalised) band values against the state's raw targets, floored at
0.5 and rounded to two decimals. -/
def calculateConfidence (brain : Band → ℚ) (p : StatePattern) : ℚ :=
  roundTo2 (max 0.5 (1 -
    (|bandVal p .delta - brain .delta| + |bandVal p .theta - brain .theta| +
     |bandVal p .alpha - brain .alpha| + |bandVal p .beta - brain .beta| +
     |bandVal p .gamma - brain .gamma|) / 5))

theorem clamp01_nonneg (x : ℚ) : 0 ≤ clamp01 x := le_max_left 0 _

theorem clamp01_le_one (x : ℚ) : clamp01 x ≤ 1 := by
  unfold clamp01
  rcases le_total 1 x with h | h <;> simp [min_def, max_def] <;> split_ifs <;> linarith

theorem fluctVal_nonneg (p : StatePattern) (bias noise fd : Band → ℚ) (b : Band) :
    0 ≤ fluctVal p bias noise fd b := by
  unfold fluctVal noisyVal
  split_ifs <;> exact clamp01_nonneg _

theorem fluctVal_le_one (p : StatePattern) (bias noise fd : Band → ℚ) (b : Band) :
    fluctVal p bias noise fd b ≤ 1 := by
  unfold fluctVal noisyVal
  split_ifs <;> exact clamp01_le_one _

theorem fluctVal_le_total (p : StatePattern) (bias noise fd : Band → ℚ) (b : Band) :
    fluctVal p bias noise fd b ≤ bandTotal (fluctVal p bias noise fd) := by
  have hd := fluctVal_nonneg p bias noise fd .delta
  have ht := fluctVal_nonneg p bias noise fd .theta
  have ha := fluctVal_nonneg p bias noise fd .alpha
  have hb := fluctVal_nonneg p bias noise fd .beta
  have hg := fluctVal_nonneg p bias noise fd .gamma
  unfold bandTotal
  cases b <;> linarith

theorem generateStateData_stressed_beta :
    generateStateData stressedPattern (fun _ => 1) (fun _ => 0) (fun _ => 0) Band.beta
      = 12/11 := by
  norm_num [generateStateData, bandTotal, fluctVal, noisyVal, clamp01, bandVal,
    stressedPattern, max_def, min_def]

/-- C1 counterexample: the claim that every generated band value lies in
[0,1] fails on the code.  For the cataloged state "stressed", with the
user bias at 1 and every Gaussian draw at 0 (an attainable draw), the
renormalisation step of _generate_state_data sends the beta band to
0.9 * 2 / 1.65 = 12/11 > 1. -/
theorem c1_counterexample :
    ¬ (∀ nm pat, (nm, pat) ∈ cognitiveStatesList →
        ∀ (bias noise fd : Band → ℚ) (b : Band),
          (0 ≤ generateStateData pat bias noise fd b ∧
           generateStateData pat bias noise fd b ≤ 1) ∧
          (1/2 ≤ calculateConfidence (generateStateData pat bias noise fd) pat ∧
           calculateConfidence (generateStateData pat bias noise fd) pat ≤ 1)) := by
  intro h
  have hb := (h "stressed" stressedPattern (by simp [cognitiveStatesList])
      (fun _ => 1) (fun _ => 0) (fun _ => 0) Band.beta).1.2
  rw [generateStateData_stressed_beta] at hb
  norm_num at hb

/-- C1 amended: for every state pattern, user bias and random draw, each
generated band value lies in [0,2] (not [0,1]: the renormalisation
value / total * 5 * 0.4 can exceed 1, but never 2), and the confidence
value lies in [0.5, 1.0] as claimed. -/
theorem c1_band_range_and_confidence (p : StatePattern) (bias noise fd : Band → ℚ) (b : Band) :
    (0 ≤ generateStateData p bias noise fd b ∧
     generateStateData p bias noise fd b ≤ 2) ∧
    (1/2 ≤ calculateConfidence (generateStateData p bias noise fd) p ∧
     calculateConfidence (generateStateData p bias noise fd) p ≤ 1) := by
  have hv := fluctVal_nonneg p bias noise fd b
  have hv1 := fluctVal_le_one p bias noise fd b
  have hvt := fluctVal_le_total p bias noise fd b
  constructor
  · unfold generateStateData
    split_ifs with ht
    · have hq : fluctVal p bias noise fd b / bandTotal (fluctVal p bias noise fd) ≤ 1 :=
        (div_le_one ht).mpr hvt
      have hq0 : 0 ≤ fluctVal p bias noise fd b / bandTotal (fluctVal p bias noise fd) :=
        div_nonneg hv (le_of_lt ht)
      constructor <;> [positivity; (norm_num; linarith)]
    · exact ⟨hv, by linarith⟩
  · unfold calculateConfidence
    set brain := generateStateData p bias noise fd with hbrain
    set A := |bandVal p .delta - brain .delta| + |bandVal p .theta - brain .theta| +
      |bandVal p .alpha - brain .alpha| + |bandVal p .beta - brain .beta| +
      |bandVal p .gamma - brain .gamma| with hA
    have hA0 : 0 ≤ A := by positivity
    refine roundTo2_mem _ ?_ ?_
    · norm_num [le_max_iff]
    · apply max_le <;> [norm_num; linarith]

/-! State distribution (data_service.get_state_distribution,
lines 125-175).  The function is modelled on the state labels of the
point sequence its internal get_brain_data call produced: counting is
restricted to the seven keys of state_counts, every point contributes
to the total, and each percentage is rounded to one decimal. -/

/-- The seven keys of state_counts (lines 139-147); meditative_deep is
deliberately absent from this dictionary. -/
def sevenStates : List String :=
  ["deep_focus", "relaxed", "stressed", "creative_flow", "drowsy", "distracted", "neutral"]

/-- schemas.StateDistribution: seven named percentages. -/
structure StateDistribution where
  deep_focus : ℚ
  relaxed : ℚ
  stressed : ℚ
  creative_flow : ℚ
  drowsy : ℚ
  distracted : ℚ
  neutral : ℚ
deriving DecidableEq, Repr

/-- The fallback distribution returned when no data points exist
(lines 162-171). -/
def defaultDistribution : StateDistribution :=
  { deep_focus := 25, relaxed := 20, stressed := 10, creative_flow := 15,
    drowsy := 10, distracted := 10, neutral := 10 }

/-- data_service.get_state_distribution as a function of the state
labels of the points drawn for this invocation. -/
def getStateDistribution (states : List String) : StateDistribution :=
  if states = [] then defaultDistribution
  else
    { deep_focus := roundTo1 ((states.count "deep_focus" : ℚ) / states.length * 100)
    , relaxed := roundTo1 ((states.count "relaxed" : ℚ) / states.length * 100)
    , stressed := roundTo1 ((states.count "stressed" : ℚ) / states.length * 100)
    , creative_flow := roundTo1 ((states.count "creative_flow" : ℚ) / states.length * 100)
    , drowsy := roundTo1 ((states.count "drowsy" : ℚ) / states.length * 100)
    , distracted := roundTo1 ((states.count "distracted" : ℚ) / states.length * 100)
    , neutral := roundTo1 ((states.count "neutral" : ℚ) / states.length * 100) }

def distFields (d : StateDistribution) : List ℚ :=
  [d.deep_focus, d.relaxed, d.stressed, d.creative_flow, d.drowsy, d.distracted, d.neutral]

def distSum (d : StateDistribution) : ℚ :=
  d.deep_focus + d.relaxed + d.stressed + d.creative_flow + d.drowsy + d.distracted + d.neutral

theorem counts_partition (states : List String) (h : ∀ s ∈ states, s ∈ sevenStates) :
    states.count "deep_focus" + states.count "relaxed" + states.count "stressed" +
    states.count "creative_flow" + states.count "drowsy" + states.count "distracted" +
    states.count "neutral" = states.length := by
  induction states with
  | nil => simp
  | cons p rest ih =>
    have hp : p ∈ sevenStates := h p (List.mem_cons_self p rest)
    have hr := ih (fun s hs => h s (List.mem_cons_of_mem p hs))
    simp only [sevenStates, List.mem_cons, List.not_mem_nil, or_false] at hp
    rcases hp with hp | hp | hp | hp | hp | hp | hp <;> subst hp <;>
      simp [List.count_cons] <;> omega

theorem pct_bounds (states : List String) (hne : states ≠ []) (s : String) :
    0 ≤ roundTo1 ((states.count s : ℚ) / states.length * 100) ∧
    roundTo1 ((states.count s : ℚ) / states.length * 100) ≤ 100 := by
  have hN : (0:ℚ) < states.length := by exact_mod_cast List.length_pos.mpr hne
  have hc : ((states.count s : ℕ) : ℚ) ≤ (states.length : ℚ) := by
    exact_mod_cast List.count_le_length s states
  have h1 : (states.count s : ℚ) / states.length * 100 ≤ 100 := by
    have hq : (states.count s : ℚ) / states.length ≤ 1 := (div_le_one hN).mpr hc
    linarith
  exact roundTo1_mem _ (by positivity) h1

/-- C2 counterexample: over a point sequence that contains a
meditative_deep-labeled point, the seven percentages do not come within
7 x 0.05 of 100: with points [neutral, meditative_deep] the sum is 50. -/
theorem c2_counterexample :
    ¬ (∀ states : List String, states ≠ [] →
        (∀ v ∈ distFields (getStateDistribution states), 0 ≤ v ∧ v ≤ 100) ∧
        |distSum (getStateDistribution states) - 100| ≤ 7 * (5/100)) := by
  intro h
  have h2 := (h ["neutral", "meditative_deep"] (by simp)).2
  simp [getStateDistribution, distSum] at h2
  norm_num [roundTo1, pyRound, abs_le] at h2

/-- C2 amended: for every non-empty point sequence the seven reported
percentages each lie in [0,100]; and when every point's state is one of
the seven counted states (i.e. no meditative_deep or otherwise
unrecognised label occurs), the sum of the seven percentages differs
from 100 by at most 7 x 0.05.  A point whose state is not among the
seven still counts toward the total but toward no bucket, so with such
points the sum falls short of 100 by that share. -/
theorem c2_distribution_bounds (states : List String) (hne : states ≠ []) :
    (∀ v ∈ distFields (getStateDistribution states), 0 ≤ v ∧ v ≤ 100) ∧
    ((∀ s ∈ states, s ∈ sevenStates) →
      |distSum (getStateDistribution states) - 100| ≤ 7 * (5/100)) := by
  have hN : (0:ℚ) < states.length := by exact_mod_cast List.length_pos.mpr hne
  constructor
  · intro v hv
    unfold getStateDistribution at hv
    rw [if_neg hne] at hv
    simp only [distFields, List.mem_cons, List.not_mem_nil, or_false] at hv
    rcases hv with rfl | rfl | rfl | rfl | rfl | rfl | rfl <;> exact pct_bounds states hne _
  · intro hall
    have hcnt := counts_partition states hall
    unfold getStateDistribution
    rw [if_neg hne]
    simp only [distSum]
    have hsum : (states.count "deep_focus" : ℚ) / states.length * 100 +
        (states.count "relaxed" : ℚ) / states.length * 100 +
        (states.count "stressed" : ℚ) / states.length * 100 +
        (states.count "creative_flow" : ℚ) / states.length * 100 +
        (states.count "drowsy" : ℚ) / states.length * 100 +
        (states.count "distracted" : ℚ) / states.length * 100 +
        (states.count "neutral" : ℚ) / states.length * 100 = 100 := by
      have hq : ((states.count "deep_focus" : ℕ) : ℚ) + (states.count "relaxed" : ℚ) +
          (states.count "stressed" : ℚ) + (states.count "creative_flow" : ℚ) +
          (states.count "drowsy" : ℚ) + (states.count "distracted" : ℚ) +
          (states.count "neutral" : ℚ) = (states.length : ℚ) := by exact_mod_cast hcnt
      field_simp
      linarith
    have e1 := abs_le.mp (roundTo1_err ((states.count "deep_focus" : ℚ) / states.length * 100))
    have e2 := abs_le.mp (roundTo1_err ((states.count "relaxed" : ℚ) / states.length * 100))
    have e3 := abs_le.mp (roundTo1_err ((states.count "stressed" : ℚ) / states.length * 100))
    have e4 := abs_le.mp (roundTo1_err ((states.count "creative_flow" : ℚ) / states.length * 100))
    have e5 := abs_le.mp (roundTo1_err ((states.count "drowsy" : ℚ) / states.length * 100))
    have e6 := abs_le.mp (roundTo1_err ((states.count "distracted" : ℚ) / states.length * 100))
    have e7 := abs_le.mp (roundTo1_err ((states.count "neutral" : ℚ) / states.length * 100))
    rw [abs_le]
    constructor <;> linarith

/-- Witness for C2: a concrete all-recognised point sequence. -/
theorem c2_distribution_bounds_witness :
    (["deep_focus", "stressed"] : List String) ≠ [] ∧
    (∀ s ∈ (["deep_focus", "stressed"] : List String), s ∈ sevenStates) ∧
    (∀ v ∈ distFields (getStateDistribution ["deep_focus", "stressed"]), 0 ≤ v ∧ v ≤ 100) ∧
    |distSum (getStateDistribution ["deep_focus", "stressed"]) - 100| ≤ 7 * (5/100) := by
  have h := c2_distribution_bounds ["deep_focus", "stressed"] (by simp)
  exact ⟨by simp, by simp [sevenStates], h.1, h.2 (by simp [sevenStates])⟩

/-! Cognitive score (data_service.get_cognitive_score, lines 177-211). -/

/-- The score computation of lines 202-208 applied to an observed
distribution: int() truncation, then clamping into [0,100]. -/
def cognitiveScoreOf (d : StateDistribution) : ℤ :=
  let focus_score := (d.deep_focus + d.creative_flow) * 0.5
  let stress_penalty := d.stressed * 0.8
  let drowsy_penalty := d.drowsy * 0.6
  let distracted_penalty := d.distracted * 0.4
  max 0 (min 100 (pyInt (50 + focus_score - stress_penalty - drowsy_penalty - distracted_penalty)))

/-- data_service.get_cognitive_score.  dataStates are the labels of the
points drawn by its own get_brain_data call (line 187, used only for
the emptiness check); distStates are those of the fresh draw made
inside its get_state_distribution call (line 194). -/
def getCognitiveScore (dataStates distStates : List String) : ℤ :=
  if dataStates = [] then 70
  else cognitiveScoreOf (getStateDistribution distStates)

/-- C6 counterexample: with one deep_focus point among three the
distribution is 33.3 percent, the raw expression is 66.65, and the code
returns int-truncated 66, not clamp(0,100) of the expression. -/
theorem c6_counterexample :
    ¬ (∀ dataStates distStates : List String, dataStates ≠ [] →
        ((getCognitiveScore dataStates distStates : ℚ) =
          max 0 (min 100 (50 +
            ((getStateDistribution distStates).deep_focus +
             (getStateDistribution distStates).creative_flow) * 0.5 -
            (getStateDistribution distStates).stressed * 0.8 -
            (getStateDistribution distStates).drowsy * 0.6 -
            (getStateDistribution distStates).distracted * 0.4)))) := by
  intro h
  have h6 := h ["deep_focus"] ["deep_focus", "neutral", "neutral"] (by simp)
  simp [getCognitiveScore, cognitiveScoreOf, getStateDistribution] at h6
  norm_num [roundTo1, pyRound, pyInt, max_def, min_def] at h6

/-- C6 amended: get_cognitive_score always returns an integer in
[0,100]; with an empty point sequence it returns exactly 70; otherwise
it returns clamp(0,100) of the int() truncation (toward zero) of
50 + 0.5x(deep_focus%+creative_flow%) - 0.8xstressed% - 0.6xdrowsy%
- 0.4xdistracted%. -/
theorem c6_score_bounds_and_formula (dataStates distStates : List String) :
    (0 ≤ getCognitiveScore dataStates distStates ∧
     getCognitiveScore dataStates distStates ≤ 100) ∧
    (dataStates = [] → getCognitiveScore dataStates distStates = 70) ∧
    (dataStates ≠ [] → getCognitiveScore dataStates distStates =
      max 0 (min 100 (pyInt (50 +
        ((getStateDistribution distStates).deep_focus +
         (getStateDistribution distStates).creative_flow) * 0.5 -
        (getStateDistribution distStates).stressed * 0.8 -
        (getStateDistribution distStates).drowsy * 0.6 -
        (getStateDistribution distStates).distracted * 0.4)))) := by
  refine ⟨?_, ?_, ?_⟩
  · unfold getCognitiveScore
    split_ifs with hd
    · norm_num
    · unfold cognitiveScoreOf
      exact ⟨le_max_left 0 _, max_le (by norm_num) (min_le_left 100 _)⟩
  · intro hd; simp [getCognitiveScore, hd]
  · intro hd
    unfold getCognitiveScore
    rw [if_neg hd]
    rfl

/-- Witness for C6 at a concrete non-empty input. -/
theorem c6_score_bounds_and_formula_witness :
    (["deep_focus"] : List String) ≠ [] ∧
    (0 ≤ getCognitiveScore ["deep_focus"] ["deep_focus"] ∧
     getCognitiveScore ["deep_focus"] ["deep_focus"] ≤ 100) ∧
    getCognitiveScore ["deep_focus"] ["deep_focus"] =
      max 0 (min 100 (pyInt (50 +
        ((getStateDistribution ["deep_focus"]).deep_focus +
         (getStateDistribution ["deep_focus"]).creative_flow) * 0.5 -
        (getStateDistribution ["deep_focus"]).stressed * 0.8 -
        (getStateDistribution ["deep_focus"]).drowsy * 0.6 -
        (getStateDistribution ["deep_focus"]).distracted * 0.4))) :=
  ⟨by simp, (c6_score_bounds_and_formula ["deep_focus"] ["deep_focus"]).1,
   (c6_score_bounds_and_formula ["deep_focus"] ["deep_focus"]).2.2 (by simp)⟩

/-! Period comparison (data_service.compare_time_periods,
lines 361-401). -/

/-- The changes block of the comparison result (lines 394-398). -/
structure ComparisonChanges where
  cognitive_score_change : ℤ
  focus_change : ℚ
  stress_change : ℚ
deriving DecidableEq, Repr

/-- data_service.compare_time_periods restricted to its changes block.
The service performs six independent data generations, in call order:
the distribution for period 1 (line 375), the distribution for period 2
(line 376), then inside get_cognitive_score for period 1 (line 378) a
draw for the emptiness check plus a draw for its internal distribution,
and likewise for period 2 (line 379).  Each argument is the state-label
sequence produced by one of those draws; nothing in the code ties any
two of them together. -/
def compareTimePeriodsChanges (dist1Draw dist2Draw score1Draw score1DistDraw
    score2Draw score2DistDraw : List String) : ComparisonChanges :=
  { cognitive_score_change := getCognitiveScore score1Draw score1DistDraw -
      getCognitiveScore score2Draw score2DistDraw
  , focus_change := (getStateDistribution dist1Draw).deep_focus -
      (getStateDistribution dist2Draw).deep_focus
  , stress_change := (getStateDistribution dist1Draw).stressed -
      (getStateDistribution dist2Draw).stressed }

def negChanges (c : ComparisonChanges) : ComparisonChanges :=
  { cognitive_score_change := -c.cognitive_score_change
  , focus_change := -c.focus_change
  , stress_change := -c.stress_change }

/-- C3 counterexample: each invocation of compare_time_periods
regenerates random data, so two invocations with swapped periods need
not observe related values: a run whose first invocation sees
deep_focus data for period A and neutral data for period B, and whose
second invocation sees neutral data throughout, reports changes
(50, 100, 0) and (0, 0, 0), which are not negations. -/
theorem c3_counterexample :
    ¬ (∀ a1 a2 a3 a4 a5 a6 b1 b2 b3 b4 b5 b6 : List String,
        compareTimePeriodsChanges a1 a2 a3 a4 a5 a6 =
          negChanges (compareTimePeriodsChanges b1 b2 b3 b4 b5 b6)) := by
  intro h
  have hc := congrArg ComparisonChanges.cognitive_score_change
    (h ["deep_focus"] ["neutral"] ["deep_focus"] ["deep_focus"] ["neutral"] ["neutral"]
       ["neutral"] ["neutral"] ["neutral"] ["neutral"] ["neutral"] ["neutral"])
  simp [compareTimePeriodsChanges, negChanges, getCognitiveScore, cognitiveScoreOf,
    getStateDistribution] at hc
  norm_num [roundTo1, pyRound, pyInt, max_def, min_def] at hc

/-- C3 amended: the changes are computed as period-1 value minus
period-2 value, so they are antisymmetric in the observed per-period
data: whenever the second invocation observes the same per-period data
as the first (with the periods' draws exchanged accordingly), its
changes are the exact negation.  Because each invocation draws fresh
random data, this holds for the observed summaries, not for every pair
of independent invocations. -/
theorem c3_compare_antisymmetric (a1 a2 a3 a4 a5 a6 : List String) :
    compareTimePeriodsChanges a1 a2 a3 a4 a5 a6 =
      negChanges (compareTimePeriodsChanges a2 a1 a5 a6 a3 a4) := by
  simp only [compareTimePeriodsChanges, negChanges, ComparisonChanges.mk.injEq]
  refine ⟨by ring, by ring, by ring⟩

/-! Scenarios and the session builder (patterns.py SCENARIOS,
generators.py generate_session_from_scenario, generate_custom_session,
_get_timeline_segment, _get_transition_state, _extract_activities). -/

/-- A data point dict as produced by the generators and the aggregator.
Keys that only some producers emit are Option fields: a missing dict
key is none. -/
structure BrainDataPoint where
  time : ℚ
  delta : ℚ
  theta : ℚ
  alpha : ℚ
  beta : ℚ
  gamma : ℚ
  state : String
  activity : Option String := none
  confidence : Option ℚ := none
deriving DecidableEq, Repr

instance : Inhabited BrainDataPoint :=
  ⟨{ time := 0, delta := 0, theta := 0, alpha := 0, beta := 0, gamma := 0, state := "" }⟩

/-- One timeline entry of a patterns.py SCENARIOS value (every literal
entry carries an activity). -/
structure TimelineSegment where
  time : ℕ
  state : String
  activity : String
  duration : ℕ
deriving DecidableEq, Repr

instance : Inhabited TimelineSegment := ⟨{ time := 0, state := "", activity := "", duration := 0 }⟩

structure Scenario where
  duration : ℕ
  timeline : List TimelineSegment
deriving DecidableEq, Repr

def typicalWorkdayScenario : Scenario :=
  { duration := 480
  , timeline :=
    [ { time := 0, state := "neutral", activity := "morning_emails", duration := 20 }
    , { time := 20, state := "deep_focus", activity := "coding", duration := 90 }
    , { time := 110, state := "distracted", activity := "coding", duration := 10 }
    , { time := 120, state := "relaxed", activity := "break", duration := 15 }
    , { time := 135, state := "neutral", activity := "meeting", duration := 60 }
    , { time := 195, state := "relaxed", activity := "lunch", duration := 45 }
    , { time := 240, state := "deep_focus", activity := "coding", duration := 75 }
    , { time := 315, state := "distracted", activity := "coding", duration := 15 }
    , { time := 330, state := "neutral", activity := "email", duration := 30 }
    , { time := 360, state := "creative_flow", activity := "brainstorming", duration := 45 }
    , { time := 405, state := "neutral", activity := "wrap_up", duration := 30 }
    , { time := 435, state := "drowsy", activity := "email", duration := 45 } ] }

def meditationSessionScenario : Scenario :=
  { duration := 20
  , timeline :=
    [ { time := 0, state := "stressed", activity := "meditation", duration := 3 }
    , { time := 3, state := "neutral", activity := "meditation", duration := 2 }
    , { time := 5, state := "relaxed", activity := "meditation", duration := 5 }
    , { time := 10, state := "meditative_deep", activity := "meditation", duration := 8 }
    , { time := 18, state := "relaxed", activity := "meditation", duration := 2 } ] }

def creativeWorkScenario : Scenario :=
  { duration := 120
  , timeline :=
    [ { time := 0, state := "neutral", activity := "brainstorming", duration := 15 }
    , { time := 15, state := "creative_flow", activity := "writing", duration := 45 }
    , { time := 60, state := "distracted", activity := "writing", duration := 10 }
    , { time := 70, state := "relaxed", activity := "break", duration := 10 }
    , { time := 80, state := "creative_flow", activity := "writing", duration := 40 } ] }

def stressfulDayScenario : Scenario :=
  { duration := 480
  , timeline :=
    [ { time := 0, state := "stressed", activity := "urgent_email", duration := 30 }
    , { time := 30, state := "stressed", activity := "meeting", duration := 60 }
    , { time := 90, state := "stressed", activity := "problem_solving", duration := 90 }
    , { time := 180, state := "neutral", activity := "lunch", duration := 20 }
    , { time := 200, state := "stressed", activity := "coding", duration := 120 }
    , { time := 320, state := "distracted", activity := "coding", duration := 30 }
    , { time := 350, state := "stressed", activity := "meeting", duration := 60 }
    , { time := 410, state := "drowsy", activity := "email", duration := 70 } ] }

def productiveMorningScenario : Scenario :=
  { duration := 180
  , timeline :=
    [ { time := 0, state := "neutral", activity := "planning", duration := 15 }
    , { time := 15, state := "deep_focus", activity := "coding", duration := 90 }
    , { time := 105, state := "relaxed", activity := "break", duration := 15 }
    , { time := 120, state := "deep_focus", activity := "coding", duration := 60 } ] }

/-- patterns.py SCENARIOS, in source order. -/
def scenariosList : List (String × Scenario) :=
  [("typical_workday", typicalWorkdayScenario),
   ("meditation_session", meditationSessionScenario),
   ("creative_work", creativeWorkScenario),
   ("stressful_day", stressfulDayScenario),
   ("productive_morning", productiveMorningScenario)]

/-- generators.py _get_timeline_segment: linear scan for the first
segment whose [time, time+duration) interval contains the minute;
past the end, the last segment. -/
def getTimelineSegment (minute : ℕ) (timeline : List TimelineSegment) : TimelineSegment :=
  match timeline.find?
      (fun seg => decide (seg.time ≤ minute) && decide (minute < seg.time + seg.duration)) with
  | some seg => seg
  | none => timeline.getLastD default

/-- One iteration of the loop at generators.py lines 49-70: the data
point emitted for a given minute of a scenario replay.  noise and
fluctDraw are indexed by the minute so that every point gets its own
Gaussian samples. -/
def scenarioPoint (startT : ℚ) (bias : Band → ℚ) (noise fd : ℕ → Band → ℚ)
    (timeline : List TimelineSegment) (minute : ℕ) : BrainDataPoint :=
  let seg := getTimelineSegment minute timeline
  let brain := generateStateData (statePatternOf seg.state) bias (noise minute) (fd minute)
  { time := startT + minute
  , delta := brain .delta, theta := brain .theta, alpha := brain .alpha
  , beta := brain .beta, gamma := brain .gamma
  , state := seg.state
  , activity := some seg.activity
  , confidence := some (calculateConfidence brain (statePatternOf seg.state)) }

structure ActivityEntry where
  name : String
  start_time : ℚ
  end_time : ℚ
  duration : ℕ
deriving DecidableEq, Repr

/-- generators.py _extract_activities (every literal segment has an
activity key, so every segment contributes). -/
def extractActivities (timeline : List TimelineSegment) (startT : ℚ) : List ActivityEntry :=
  timeline.map (fun seg =>
    { name := seg.activity
    , start_time := startT + (seg.time : ℚ)
    , end_time := startT + ((seg.time + seg.duration : ℕ) : ℚ)
    , duration := seg.duration })

/-- The session dict returned by the two builders. -/
structure Session where
  start_time : ℚ
  end_time : ℚ
  duration_minutes : ℕ
  data_points : List BrainDataPoint
  scenario : Option String := none
  primary_state : Option String := none
  activities : List ActivityEntry := []
deriving DecidableEq, Repr

/-- generators.py generate_session_from_scenario (lines 31-79).  The
containment test of line 38 on the SCENARIOS dict is the lookup. -/
def generateSessionFromScenario (scenarioName : String) (startT : ℚ)
    (bias : Band → ℚ) (noise fd : ℕ → Band → ℚ) : Except String Session :=
  match scenariosList.lookup scenarioName with
  | none => .error ("Unknown scenario: " ++ scenarioName)
  | some scen =>
      .ok { start_time := startT
          , end_time := startT + (scen.duration : ℚ)
          , duration_minutes := scen.duration
          , data_points := (List.range scen.duration).map
              (scenarioPoint startT bias noise fd scen.timeline)
          , scenario := some scenarioName
          , activities := extractActivities scen.timeline startT }

/-- generators.py _get_transition_state adjacency table; unknown states
fall back to [neutral]. -/
def transitionsOf (s : String) : List String :=
  if s = "deep_focus" then ["neutral", "distracted", "stressed"]
  else if s = "relaxed" then ["neutral", "drowsy", "creative_flow"]
  else if s = "stressed" then ["neutral", "distracted", "deep_focus"]
  else if s = "creative_flow" then ["relaxed", "neutral", "distracted"]
  else if s = "drowsy" then ["neutral", "relaxed"]
  else if s = "distracted" then ["neutral", "deep_focus", "stressed"]
  else if s = "neutral" then ["deep_focus", "relaxed", "distracted"]
  else ["neutral"]

/-- rng.choice over the transition list, modelled by an index draw
reduced modulo the list length. -/
def getTransitionState (current : String) (idx : ℕ) : String :=
  (transitionsOf current).getD (idx % (transitionsOf current).length) "neutral"

/-- The state used at a given minute of generate_custom_session
(lines 97-100): primary at minute 0; from minute 1 on, with the 5
percent check rng.random() < 0.05 (draw transCheck), a transition from
the previous minute's state chosen by draw transIdx. -/
def customState (primary : String) (includeTransitions : Bool)
    (transCheck : ℕ → ℚ) (transIdx : ℕ → ℕ) : ℕ → String
  | 0 => primary
  | m + 1 =>
      let prev := customState primary includeTransitions transCheck transIdx m
      if includeTransitions ∧ transCheck (m + 1) < 0.05 then
        getTransitionState prev (transIdx (m + 1))
      else prev

/-- One data point of generate_custom_session (lines 104-113): note
there is no activity key on these points. -/
def customPoint (primary : String) (startT : ℚ) (includeTransitions : Bool)
    (bias : Band → ℚ) (noise fd : ℕ → Band → ℚ) (transCheck : ℕ → ℚ) (transIdx : ℕ → ℕ)
    (minute : ℕ) : BrainDataPoint :=
  let st := customState primary includeTransitions transCheck transIdx minute
  let brain := generateStateData (statePatternOf st) bias (noise minute) (fd minute)
  { time := startT + minute
  , delta := brain .delta, theta := brain .theta, alpha := brain .alpha
  , beta := brain .beta, gamma := brain .gamma
  , state := st
  , confidence := some (calculateConfidence brain (statePatternOf st)) }

/-- generators.py generate_custom_session (lines 81-123). -/
def generateCustomSession (durationMinutes : ℕ) (primaryState : String) (startT : ℚ)
    (includeTransitions : Bool) (bias : Band → ℚ) (noise fd : ℕ → Band → ℚ)
    (transCheck : ℕ → ℚ) (transIdx : ℕ → ℕ) : Except String Session :=
  match cognitiveStatesList.lookup primaryState with
  | none => .error ("Unknown state: " ++ primaryState)
  | some _ =>
      .ok { start_time := startT
          , end_time := startT + (durationMinutes : ℚ)
          , duration_minutes := durationMinutes
          , data_points := (List.range durationMinutes).map
              (customPoint primaryState startT includeTransitions bias noise fd transCheck transIdx)
          , primary_state := some primaryState }

/-- The outcome of data_service.find_patterns (lines 403-420): one of
the two implemented analyses, or the stub dict of the else branch.  The
Except layer records that no branch raises. -/
inductive PatternOutcome where
  | timeOfDay
  | focusWindows
  | comingSoonStub (pattern_type : String) (message : String)
deriving DecidableEq, Repr

def findPatternsDispatch (patternType : String) : Except String PatternOutcome :=
  if patternType = "time_of_day" then .ok .timeOfDay
  else if patternType = "focus_windows" then .ok .focusWindows
  else .ok (.comingSoonStub patternType "Pattern analysis coming soon")

/-- C4 counterexample: find_patterns does not raise on an unrecognised
pattern type; it returns the stub result instead (the else branch at
line 420), so the third leg of the claim fails. -/
theorem c4_counterexample :
    ¬ (∀ pt : String, pt ≠ "time_of_day" → pt ≠ "focus_windows" →
        ∃ msg : String, findPatternsDispatch pt = .error msg) := by
  intro h
  rcases h "state_transitions" (by simp) (by simp) with ⟨msg, hmsg⟩
  simp [findPatternsDispatch] at hmsg

/-- C4 amended: generate_session_from_scenario and
generate_custom_session do raise descriptive errors naming the bad
value, but find_patterns returns a stub result echoing the pattern type
with a coming-soon message instead of raising. -/
theorem c4_invalid_inputs (name st pt : String) (startT : ℚ) (bias : Band → ℚ)
    (noise fd : ℕ → Band → ℚ) (d : ℕ) (it : Bool) (tc : ℕ → ℚ) (ti : ℕ → ℕ) :
    (scenariosList.lookup name = none →
      generateSessionFromScenario name startT bias noise fd =
        .error ("Unknown scenario: " ++ name)) ∧
    (cognitiveStatesList.lookup st = none →
      generateCustomSession d st startT it bias noise fd tc ti =
        .error ("Unknown state: " ++ st)) ∧
    (pt ≠ "time_of_day" → pt ≠ "focus_windows" →
      findPatternsDispatch pt = .ok (.comingSoonStub pt "Pattern analysis coming soon")) := by
  refine ⟨?_, ?_, ?_⟩
  · intro h; simp [generateSessionFromScenario, h]
  · intro h; simp [generateCustomSession, h]
  · intro h1 h2; simp [findPatternsDispatch, h1, h2]

/-- Witness for C4 at the concrete invalid inputs "bogus". -/
theorem c4_invalid_inputs_witness :
    scenariosList.lookup "bogus" = none ∧
    cognitiveStatesList.lookup "bogus" = none ∧
    ("bogus" : String) ≠ "time_of_day" ∧ ("bogus" : String) ≠ "focus_windows" ∧
    generateSessionFromScenario "bogus" 0 (fun _ => 1) (fun _ _ => 0) (fun _ _ => 0) =
      .error ("Unknown scenario: " ++ "bogus") ∧
    generateCustomSession 1 "bogus" 0 true (fun _ => 1) (fun _ _ => 0) (fun _ _ => 0)
        (fun _ => 1) (fun _ => 0) = .error ("Unknown state: " ++ "bogus") ∧
    findPatternsDispatch "bogus" = .ok (.comingSoonStub "bogus" "Pattern analysis coming soon") := by
  have h := c4_invalid_inputs "bogus" "bogus" "bogus" 0 (fun _ => 1) (fun _ _ => 0) (fun _ _ => 0)
    1 true (fun _ => 1) (fun _ => 0)
  exact ⟨rfl, rfl, by simp, by simp, h.1 rfl, h.2.1 rfl, h.2.2 (by simp) (by simp)⟩

/-- C8 confirmed: replaying meditation_session from any start time, for
any user bias and any random draw, yields exactly 20 points whose state
labels follow the fixed segment table: stressed for minutes 0-2,
neutral for 3-4, relaxed for 5-9, meditative_deep for 10-17 and relaxed
for 18-19. -/
theorem c8_meditation_structure (startT : ℚ) (bias : Band → ℚ) (noise fd : ℕ → Band → ℚ) :
    ∃ s : Session,
      generateSessionFromScenario "meditation_session" startT bias noise fd = .ok s ∧
      s.data_points.length = 20 ∧
      s.data_points.map BrainDataPoint.state =
        ["stressed", "stressed", "stressed", "neutral", "neutral",
         "relaxed", "relaxed", "relaxed", "relaxed", "relaxed",
         "meditative_deep", "meditative_deep", "meditative_deep", "meditative_deep",
         "meditative_deep", "meditative_deep", "meditative_deep", "meditative_deep",
         "relaxed", "relaxed"] := by
  refine ⟨_, rfl, rfl, ?_⟩
  simp only [generateSessionFromScenario]
  rfl

/-! Aggregation (data_service._aggregate_data, lines 537-578). -/

/-- The granularity-to-window table of lines 550-554 (dict get with
default 5). -/
def windowMinutes (granularity : String) : ℕ :=
  if granularity = "5min" then 5
  else if granularity = "15min" then 15
  else if granularity = "hour" then 60
  else 5

/-- The consecutive slices data_points[i:i+window] visited by the while
loop of lines 557-576 (the undersized final slice included). -/
def chunkList {α : Type} (W : ℕ) (l : List α) : List (List α) :=
  if h : W = 0 ∨ l.isEmpty then [] else l.take W :: chunkList W (l.drop W)
termination_by l.length
decreasing_by
  simp only [List.length_drop]
  obtain ⟨h2, h1⟩ := not_or.mp h
  have h3 : 0 < l.length := by
    cases l
    · simp at h1
    · simp
  omega

theorem chunkList_nil {α : Type} (W : ℕ) : chunkList W ([] : List α) = [] := by
  rw [chunkList]; simp

theorem chunkList_cons {α : Type} (W : ℕ) (l : List α) (hW : W ≠ 0) (hl : l ≠ []) :
    chunkList W l = l.take W :: chunkList W (l.drop W) := by
  rw [chunkList]
  rw [dif_neg]
  simp [hW, hl]

/-- The averaged point of lines 565-573: only time, the five band means
and the middle element's state are emitted. -/
def aggregateChunk (window : List BrainDataPoint) : BrainDataPoint :=
  { time := window.headI.time
  , delta := (window.map BrainDataPoint.delta).sum / window.length
  , theta := (window.map BrainDataPoint.theta).sum / window.length
  , alpha := (window.map BrainDataPoint.alpha).sum / window.length
  , beta := (window.map BrainDataPoint.beta).sum / window.length
  , gamma := (window.map BrainDataPoint.gamma).sum / window.length
  , state := (window.getD (window.length / 2) default).state }

/-- data_service._aggregate_data. -/
def aggregateData (dataPoints : List BrainDataPoint) (granularity : String) :
    List BrainDataPoint :=
  if granularity = "minute" ∨ dataPoints = [] then dataPoints
  else (chunkList (windowMinutes granularity) dataPoints).map aggregateChunk

theorem chunkList_length {α : Type} (W : ℕ) (hW : 0 < W) :
    ∀ n (l : List α), l.length = n → l ≠ [] →
      (chunkList W l).length = (l.length + W - 1) / W := by
  intro n
  induction n using Nat.strong_induction_on with
  | _ n ih =>
    intro l hn hl
    have h2 : 0 < l.length := List.length_pos.mpr hl
    rw [chunkList_cons W l (by omega) hl]
    by_cases hd : l.drop W = []
    · have h1 : l.length ≤ W := by
        have := congrArg List.length hd
        simp only [List.length_drop, List.length_nil] at this
        omega
      have hle : 1 ≤ (l.length + W - 1) / W := by
        rw [Nat.le_div_iff_mul_le hW]; omega
      have hlt : (l.length + W - 1) / W < 2 := by
        rw [Nat.div_lt_iff_lt_mul hW]; omega
      simp only [hd, chunkList_nil, List.length_cons, List.length_nil]
      omega
    · have hWlen : W < l.length := by
        by_contra hc
        push_neg at hc
        apply hd
        rw [← List.length_eq_zero]
        simp only [List.length_drop]
        omega
      have hrec := ih (l.length - W) (by omega) (l.drop W) (by simp) hd
      simp only [List.length_drop] at hrec
      simp only [List.length_cons, hrec]
      have e1 : l.length - W + W - 1 = l.length - 1 := by omega
      have e2 : l.length + W - 1 = l.length - 1 + W := by omega
      rw [e1, e2, Nat.add_div_right _ hW]

theorem chunkList_getD {α : Type} (W : ℕ) (hW : 0 < W) :
    ∀ n (l : List α), l.length = n → ∀ k, k < (chunkList W l).length →
      (chunkList W l).getD k [] = (l.drop (k * W)).take W := by
  intro n
  induction n using Nat.strong_induction_on with
  | _ n ih =>
    intro l hn k hk
    have hl : l ≠ [] := by
      intro hc
      subst hc
      rw [chunkList_nil] at hk
      simp at hk
    have h2 : 0 < l.length := List.length_pos.mpr hl
    rw [chunkList_cons W l (by omega) hl] at hk ⊢
    cases k with
    | zero => simp
    | succ k =>
      simp only [List.getD_cons_succ]
      simp only [List.length_cons] at hk
      have hrec := ih (l.length - W) (by omega) (l.drop W) (by simp) k (by omega)
      rw [hrec, List.drop_drop]
      have he : W + k * W = (k + 1) * W := by ring
      rw [he]

theorem headI_take {α : Type} [Inhabited α] (l : List α) (W : ℕ) (hW : W ≠ 0) :
    (l.take W).headI = l.headI := by
  cases l <;> cases W <;> simp_all

theorem headI_drop {α : Type} [Inhabited α] :
    ∀ (l : List α) (m : ℕ), m < l.length → (l.drop m).headI = l.getD m default := by
  intro l
  induction l with
  | nil => simp
  | cons a t ih =>
    intro m hm
    cases m with
    | zero => simp
    | succ m =>
      simp only [List.drop_succ_cons, List.getD_cons_succ]
      exact ih m (by simpa using hm)

/-- C5 confirmed: for granularity 5min/15min/hour with window size W,
aggregating a non-empty list of N points yields ceil(N/W) output
points (the undersized final chunk is aggregated, not dropped), and
output point k carries the timestamp of input point k*W. -/
theorem c5_aggregation (g : String) (pts : List BrainDataPoint)
    (hg : g ∈ ["5min", "15min", "hour"]) (hne : pts ≠ []) :
    (aggregateData pts g).length = (pts.length + windowMinutes g - 1) / windowMinutes g ∧
    ∀ k, k < (aggregateData pts g).length →
      ((aggregateData pts g).getD k default).time =
        (pts.getD (k * windowMinutes g) default).time := by
  have hW : 0 < windowMinutes g := by
    simp only [List.mem_cons, List.not_mem_nil, or_false] at hg
    rcases hg with rfl | rfl | rfl <;> decide
  have hgm : g ≠ "minute" := by
    simp only [List.mem_cons, List.not_mem_nil, or_false] at hg
    rcases hg with rfl | rfl | rfl <;> decide
  have hagg : aggregateData pts g =
      (chunkList (windowMinutes g) pts).map aggregateChunk := by
    unfold aggregateData
    rw [if_neg]
    push_neg
    exact ⟨hgm, hne⟩
  set W := windowMinutes g with hWdef
  have hlen : (chunkList W pts).length = (pts.length + W - 1) / W :=
    chunkList_length W hW pts.length pts rfl hne
  constructor
  · rw [hagg, List.length_map, hlen]
  · intro k hk
    rw [hagg] at hk ⊢
    rw [List.length_map] at hk
    have hkW : k * W < pts.length := by
      rw [hlen] at hk
      have hmul : (k + 1) * W ≤ pts.length + W - 1 := by
        rw [← Nat.le_div_iff_mul_le hW]
        omega
      rw [Nat.succ_mul] at hmul
      have hp : 0 < pts.length := List.length_pos.mpr hne
      omega
    have hchunk := chunkList_getD W hW pts.length pts rfl k hk
    have hget : ((chunkList W pts).map aggregateChunk).getD k default =
        aggregateChunk ((chunkList W pts).getD k []) := by
      have h1 : (chunkList W pts).get? k = some ((chunkList W pts).getD k []) := by
        rw [List.getD_eq_getD_get?]
        cases h : (chunkList W pts).get? k with
        | none =>
          rw [List.get?_eq_none] at h
          omega
        | some c => rfl
      have h2 : ((chunkList W pts).map aggregateChunk).get? k =
          some (aggregateChunk ((chunkList W pts).getD k [])) := by
        rw [List.get?_map, h1]
        rfl
      rw [List.getD_eq_getD_get?, h2]
      rfl
    rw [hget, hchunk]
    show ((pts.drop (k * W)).take W).headI.time = _
    rw [headI_take _ W (by omega), headI_drop pts (k * W) hkW]

/-! data_service.get_brain_data (lines 23-123). -/

/-- Lines 45-51: int() of the minute difference, clamped up to 1. -/
def requestDuration (startT endT : ℚ) : ℤ := max 1 (pyInt (endT - startT))

/-- Lines 107-122: aggregate unless the granularity is minute. -/
def applyGranularity (pts : List BrainDataPoint) (granularity : String) : List BrainDataPoint :=
  if granularity ≠ "minute" then aggregateData pts granularity else pts

/-- The scenarios eligible for today's data (line 62). -/
def scenarioChoices : List String := ["typical_workday", "productive_morning", "creative_work"]

/-- SCENARIOS.get(scenario_name, SCENARIOS[typical_workday]) at line 68. -/
def scenarioOf (sp : String) : Scenario :=
  (scenariosList.lookup sp).getD typicalWorkdayScenario

/-- data_service.get_brain_data as a function of its draw parameters.
isToday models the date comparison of line 58; scenarioPick is the
value drawn by random.choice at line 63 (always a member of
scenarioChoices); primaryPick the value drawn at line 97 (always one of
deep_focus / relaxed / creative_flow / neutral); the rest are the
generator draws.  Timestamps are in minutes. -/
def getBrainData (isToday : Bool) (startT endT : ℚ) (scenarioPick primaryPick : String)
    (bias : Band → ℚ) (noise fd : ℕ → Band → ℚ) (transCheck : ℕ → ℚ) (transIdx : ℕ → ℕ)
    (granularity : String) : Except String (List BrainDataPoint) :=
  if isToday ∧ 60 < requestDuration startT endT then
    if requestDuration startT endT < ((scenarioOf scenarioPick).duration : ℤ) then
      (generateSessionFromScenario scenarioPick startT bias noise fd).map
        (fun s => applyGranularity
          (s.data_points.filter (fun p => decide (p.time < endT))) granularity)
    else
      (generateSessionFromScenario scenarioPick startT bias noise fd).map
        (fun s => applyGranularity s.data_points granularity)
  else
    (generateCustomSession (requestDuration startT endT).toNat primaryPick startT true
        bias noise fd transCheck transIdx).map
      (fun s => applyGranularity s.data_points granularity)

theorem except_map_ok {ε α β : Type} (f : α → β) (e : Except ε α) (b : β)
    (h : e.map f = .ok b) : ∃ a, e = .ok a ∧ b = f a := by
  cases e with
  | error err => simp [Except.map] at h
  | ok a =>
    simp only [Except.map, Except.ok.injEq] at h
    exact ⟨a, rfl, h.symm⟩

/-- When the requested window is today's, longer than an hour and at
least as long as the drawn scenario, the full scenario point list comes
back untruncated and without padding. -/
theorem getBrainData_scenario_full (startT endT : ℚ) (sp pp : String) (scen : Scenario)
    (bias : Band → ℚ) (noise fd : ℕ → Band → ℚ) (tc : ℕ → ℚ) (ti : ℕ → ℕ)
    (hlup : scenariosList.lookup sp = some scen)
    (h60 : 60 < requestDuration startT endT)
    (hdur : (scen.duration : ℤ) < requestDuration startT endT) :
    getBrainData true startT endT sp pp bias noise fd tc ti "minute" =
      .ok ((List.range scen.duration).map (scenarioPoint startT bias noise fd scen.timeline)) := by
  unfold getBrainData scenarioOf
  rw [hlup]
  simp only [Option.getD_some]
  rw [if_pos ⟨by trivial, h60⟩, if_neg (not_lt.mpr (le_of_lt hdur))]
  unfold generateSessionFromScenario
  rw [hlup]
  simp [applyGranularity, Except.map]

/-- C9 confirmed: when start_time falls on the current day and the
requested duration exceeds both 60 minutes and the duration of the
randomly chosen scenario, get_brain_data at minute granularity returns
exactly the scenario's points: their count equals the scenario duration
(at most 480), strictly fewer than the requested number of minutes,
with no padding out to the requested end time. -/
theorem c9_no_padding (startT endT : ℚ) (sp pp : String) (bias : Band → ℚ)
    (noise fd : ℕ → Band → ℚ) (tc : ℕ → ℚ) (ti : ℕ → ℕ)
    (hsp : sp ∈ scenarioChoices)
    (h60 : 60 < requestDuration startT endT)
    (hdur : ((scenarioOf sp).duration : ℤ) < requestDuration startT endT) :
    ∃ pts : List BrainDataPoint,
      getBrainData true startT endT sp pp bias noise fd tc ti "minute" = .ok pts ∧
      pts.length = (scenarioOf sp).duration ∧
      (pts.length : ℤ) < requestDuration startT endT ∧
      pts.length ≤ 480 := by
  simp only [scenarioChoices, List.mem_cons, List.not_mem_nil, or_false] at hsp
  rcases hsp with rfl | rfl | rfl
  · exact ⟨_, getBrainData_scenario_full startT endT "typical_workday" pp
      typicalWorkdayScenario bias noise fd tc ti rfl h60 hdur,
      by rw [List.length_map, List.length_range]; rfl,
      by rw [List.length_map, List.length_range]; exact hdur,
      by rw [List.length_map, List.length_range]; norm_num [typicalWorkdayScenario]⟩
  · exact ⟨_, getBrainData_scenario_full startT endT "productive_morning" pp
      productiveMorningScenario bias noise fd tc ti rfl h60 hdur,
      by rw [List.length_map, List.length_range]; rfl,
      by rw [List.length_map, List.length_range]; exact hdur,
      by rw [List.length_map, List.length_range]; norm_num [productiveMorningScenario]⟩
  · exact ⟨_, getBrainData_scenario_full startT endT "creative_work" pp
      creativeWorkScenario bias noise fd tc ti rfl h60 hdur,
      by rw [List.length_map, List.length_range]; rfl,
      by rw [List.length_map, List.length_range]; exact hdur,
      by rw [List.length_map, List.length_range]; norm_num [creativeWorkScenario]⟩

/-- Witness for C9: requesting 481 minutes of today's data against the
480-minute typical_workday scenario. -/
theorem c9_no_padding_witness :
    ("typical_workday" : String) ∈ scenarioChoices ∧
    60 < requestDuration 0 481 ∧
    ((scenarioOf "typical_workday").duration : ℤ) < requestDuration 0 481 ∧
    (∃ pts : List BrainDataPoint,
      getBrainData true 0 481 "typical_workday" "neutral" (fun _ => 1) (fun _ _ => 0)
        (fun _ _ => 0) (fun _ => 1) (fun _ => 0) "minute" = .ok pts ∧
      pts.length = (scenarioOf "typical_workday").duration ∧
      (pts.length : ℤ) < requestDuration 0 481 ∧
      pts.length ≤ 480) := by
  have hdur : requestDuration 0 481 = 481 := by
    norm_num [requestDuration, pyInt]
  have hscen : (scenarioOf "typical_workday").duration = 480 := rfl
  refine ⟨by simp [scenarioChoices], by rw [hdur]; norm_num,
    by rw [hdur, hscen]; norm_num, ?_⟩
  exact c9_no_padding 0 481 "typical_workday" "neutral" (fun _ => 1) (fun _ _ => 0)
    (fun _ _ => 0) (fun _ => 1) (fun _ => 0) (by simp [scenarioChoices])
    (by rw [hdur]; norm_num) (by rw [hdur, hscen]; norm_num)

/-- Seven concrete minute points for the aggregation witness. -/
def c5witnessPoints : List BrainDataPoint :=
  (List.range 7).map (fun m =>
    { time := (m : ℚ), delta := 0.2, theta := 0.2, alpha := 0.2, beta := 0.2, gamma := 0.2
    , state := "neutral", confidence := some 0.7 })

/-- Witness for C5: seven points, window 5, two output chunks. -/
theorem c5_aggregation_witness :
    ("5min" : String) ∈ (["5min", "15min", "hour"] : List String) ∧
    c5witnessPoints ≠ [] ∧
    ((aggregateData c5witnessPoints "5min").length =
      (c5witnessPoints.length + windowMinutes "5min" - 1) / windowMinutes "5min" ∧
     ∀ k, k < (aggregateData c5witnessPoints "5min").length →
      ((aggregateData c5witnessPoints "5min").getD k default).time =
        (c5witnessPoints.getD (k * windowMinutes "5min") default).time) := by
  have hne : c5witnessPoints ≠ [] := by
    simp only [c5witnessPoints]
    simp
    exact ⟨0, by norm_num⟩
  refine ⟨by simp, hne, ?_⟩
  exact c5_aggregation "5min" c5witnessPoints (by simp) hne

/-- Every point built by the aggregator carries no confidence and no
activity key. -/
theorem aggregateData_fields (g : String) (pts : List BrainDataPoint) (hg : g ≠ "minute") :
    ∀ p ∈ aggregateData pts g, p.confidence = none ∧ p.activity = none := by
  intro p hp
  unfold aggregateData at hp
  split_ifs at hp with hcond
  · rcases hcond with hc | hc
    · exact absurd hc hg
    · subst hc; simp at hp
  · rcases List.mem_map.mp hp with ⟨c, _, rfl⟩
    exact ⟨rfl, rfl⟩

theorem applyGranularity_fields (g : String) (pts : List BrainDataPoint) (hg : g ≠ "minute") :
    ∀ p ∈ applyGranularity pts g, p.confidence = none ∧ p.activity = none := by
  intro p hp
  unfold applyGranularity at hp
  rw [if_pos hg] at hp
  exact aggregateData_fields g pts hg p hp

/-- C10 counterexample: the claim asserts that the activity field is
present on every minute-level generated point, but the points of
generate_custom_session (lines 104-113) carry no activity key at all. -/
theorem c10_counterexample :
    ¬ (∀ (d : ℕ) (ps : String) (startT : ℚ) (it : Bool) (bias : Band → ℚ)
        (noise fd : ℕ → Band → ℚ) (tc : ℕ → ℚ) (ti : ℕ → ℕ) (s : Session),
        generateCustomSession d ps startT it bias noise fd tc ti = .ok s →
        ∀ p ∈ s.data_points, p.confidence.isSome ∧ p.activity.isSome) := by
  intro h
  have hs := h 1 "neutral" 0 true (fun _ => 1) (fun _ _ => 0) (fun _ _ => 0)
    (fun _ => 1) (fun _ => 0) _ rfl
  have hp := (hs (customPoint "neutral" 0 true (fun _ => 1) (fun _ _ => 0) (fun _ _ => 0)
    (fun _ => 1) (fun _ => 0) 0) (List.mem_map_of_mem _ (by simp))).2
  simp [customPoint] at hp

/-- C10 amended: for every granularity other than minute, each point
returned by get_brain_data carries only timestamp, the five bands and a
state label: its confidence and activity fields are absent.  The
confidence field is present on every minute-level generated point, and
the activity field on every scenario-generated point, but custom-session
points already lack the activity field. -/
theorem c10_aggregated_fields :
    (∀ (isT : Bool) (startT endT : ℚ) (sp pp : String) (bias : Band → ℚ)
        (noise fd : ℕ → Band → ℚ) (tc : ℕ → ℚ) (ti : ℕ → ℕ) (g : String),
        g ≠ "minute" → ∀ pts : List BrainDataPoint,
        getBrainData isT startT endT sp pp bias noise fd tc ti g = .ok pts →
        ∀ p ∈ pts, p.confidence = none ∧ p.activity = none) ∧
    (∀ (name : String) (startT : ℚ) (bias : Band → ℚ) (noise fd : ℕ → Band → ℚ) (s : Session),
        generateSessionFromScenario name startT bias noise fd = .ok s →
        ∀ p ∈ s.data_points, p.confidence.isSome ∧ p.activity.isSome) ∧
    (∀ (d : ℕ) (ps : String) (startT : ℚ) (it : Bool) (bias : Band → ℚ)
        (noise fd : ℕ → Band → ℚ) (tc : ℕ → ℚ) (ti : ℕ → ℕ) (s : Session),
        generateCustomSession d ps startT it bias noise fd tc ti = .ok s →
        ∀ p ∈ s.data_points, p.confidence.isSome ∧ p.activity = none) := by
  refine ⟨?_, ?_, ?_⟩
  · intro isT startT endT sp pp bias noise fd tc ti g hg pts hok p hp
    unfold getBrainData at hok
    split_ifs at hok
    · rcases except_map_ok _ _ _ hok with ⟨s, _, rfl⟩
      exact applyGranularity_fields g _ hg p hp
    · rcases except_map_ok _ _ _ hok with ⟨s, _, rfl⟩
      exact applyGranularity_fields g _ hg p hp
    · rcases except_map_ok _ _ _ hok with ⟨s, _, rfl⟩
      exact applyGranularity_fields g _ hg p hp
  · intro name startT bias noise fd s hok p hp
    unfold generateSessionFromScenario at hok
    cases hlup : scenariosList.lookup name with
    | none => rw [hlup] at hok; simp at hok
    | some scen =>
      rw [hlup] at hok
      simp only [Except.ok.injEq] at hok
      subst hok
      rcases List.mem_map.mp hp with ⟨m, _, rfl⟩
      exact ⟨rfl, rfl⟩
  · intro d ps startT it bias noise fd tc ti s hok p hp
    unfold generateCustomSession at hok
    cases hlup : cognitiveStatesList.lookup ps with
    | none => rw [hlup] at hok; simp at hok
    | some pat =>
      rw [hlup] at hok
      simp only [Except.ok.injEq] at hok
      subst hok
      rcases List.mem_map.mp hp with ⟨m, _, rfl⟩
      exact ⟨rfl, rfl⟩

/-- Witness for C10: a one-minute custom session aggregated at 5min
granularity; its single output point has neither confidence nor
activity, while the underlying minute point has a confidence and no
activity. -/
theorem c10_aggregated_fields_witness :
    (("5min" : String) ≠ "minute") ∧
    (∃ pts : List BrainDataPoint,
      getBrainData false 0 1 "typical_workday" "neutral" (fun _ => 1) (fun _ _ => 0)
        (fun _ _ => 0) (fun _ => 1) (fun _ => 0) "5min" = .ok pts ∧
      ∀ p ∈ pts, p.confidence = none ∧ p.activity = none) ∧
    (∃ s : Session,
      generateCustomSession 1 "neutral" 0 true (fun _ => 1) (fun _ _ => 0) (fun _ _ => 0)
        (fun _ => 1) (fun _ => 0) = .ok s ∧
      ∀ p ∈ s.data_points, p.confidence.isSome ∧ p.activity = none) := by
  have hd : requestDuration 0 1 = 1 := by norm_num [requestDuration, pyInt]
  have hok : getBrainData false 0 1 "typical_workday" "neutral" (fun _ => 1) (fun _ _ => 0)
      (fun _ _ => 0) (fun _ => 1) (fun _ => 0) "5min" =
      .ok (applyGranularity ((List.range 1).map (customPoint "neutral" 0 true (fun _ => 1)
        (fun _ _ => 0) (fun _ _ => 0) (fun _ => 1) (fun _ => 0))) "5min") := by
    unfold getBrainData
    rw [if_neg (by simp), hd]
    rfl
  refine ⟨by simp, ⟨_, hok, ?_⟩, ⟨_, rfl, ?_⟩⟩
  · exact c10_aggregated_fields.1 false 0 1 "typical_workday" "neutral" (fun _ => 1)
      (fun _ _ => 0) (fun _ _ => 0) (fun _ => 1) (fun _ => 0) "5min" (by simp) _ hok
  · exact c10_aggregated_fields.2.2 1 "neutral" 0 true (fun _ => 1) (fun _ _ => 0)
      (fun _ _ => 0) (fun _ => 1) (fun _ => 0) _ rfl

/-! Activity segmentation (data_service.get_activities lines 213-359,
with the inner finalize_segment closure of lines 269-325). -/

/-- data_service._infer_activity_from_state (lines 520-535). -/
def inferActivityFromState (state : String) : String :=
  if state = "deep_focus" then "focus_session"
  else if state = "creative_flow" then "creative_work"
  else if state = "relaxed" then "restorative_break"
  else if state = "stressed" then "high_pressure_task"
  else if state = "drowsy" then "fatigue_period"
  else if state = "distracted" then "context_switching"
  else if state = "neutral" then "light_tasking"
  else if state = "meditative_deep" then "meditation"
  else if state = "unknown" then "unspecified_activity"
  else "unspecified_activity"

/-- A point after the normalisation loop of lines 236-259. -/
structure NormalizedPoint where
  time : ℚ
  activity : String
  activity_source : String
  state : String
  confidence : ℚ
deriving DecidableEq, Repr

/-- Lines 248-259: default a falsy state to unknown, infer a falsy
activity from the state (tagging the source), default the confidence
to 0.7. -/
def normalizePoint (p : BrainDataPoint) : NormalizedPoint :=
  let st := if p.state = "" then "unknown" else p.state
  match p.activity with
  | some a =>
      if a = "" then
        { time := p.time, activity := inferActivityFromState st, activity_source := "inferred"
        , state := st, confidence := p.confidence.getD 0.7 }
      else
        { time := p.time, activity := a, activity_source := "scenario"
        , state := st, confidence := p.confidence.getD 0.7 }
  | none =>
      { time := p.time, activity := inferActivityFromState st, activity_source := "inferred"
      , state := st, confidence := p.confidence.getD 0.7 }

def insertByTime (p : NormalizedPoint) : List NormalizedPoint → List NormalizedPoint
  | [] => [p]
  | q :: qs => if q.time ≤ p.time then q :: insertByTime p qs else p :: q :: qs

/-- The stable sort by timestamp of line 264. -/
def sortByTime (l : List NormalizedPoint) : List NormalizedPoint :=
  l.foldl (fun acc p => insertByTime p acc) []

/-- The running segment dict built at lines 340-348. -/
structure SegmentAcc where
  activity : String
  activity_source : String
  start_time : ℚ
  end_time : ℚ
  state_counts : List (String × ℕ)
  confidence_total : ℚ
  points_count : ℕ
deriving DecidableEq, Repr

/-- defaultdict(int) increment, preserving dict insertion order. -/
def bumpCount (counts : List (String × ℕ)) (s : String) : List (String × ℕ) :=
  match counts with
  | [] => [(s, 1)]
  | (k, v) :: rest => if k = s then (k, v + 1) :: rest else (k, v) :: bumpCount rest s

def lookupCount (counts : List (String × ℕ)) (s : String) : ℕ :=
  match counts.lookup s with
  | some v => v
  | none => 0

/-- Python max(dict, key=get) of lines 297-301: the first key with
maximal count in insertion order; unknown for an empty dict. -/
def dominantState (counts : List (String × ℕ)) : String :=
  match counts with
  | [] => "unknown"
  | c :: rest => (rest.foldl (fun best kv => if best.2 < kv.2 then kv else best) c).1

/-- The activity dict appended at lines 313-325. -/
structure ActivitySegment where
  activity : String
  start_time : ℚ
  end_time : ℚ
  duration_minutes : ℤ
  state_distribution : List (String × ℚ)
  dominant_state : String
  focus_percentage : ℚ
  average_confidence : ℚ
  source : String
deriving DecidableEq, Repr

instance : Inhabited ActivitySegment :=
  ⟨{ activity := "", start_time := 0, end_time := 0, duration_minutes := 0
   , state_distribution := [], dominant_state := "", focus_percentage := 0
   , average_confidence := 0, source := "" }⟩

/-- finalize_segment (lines 269-325); none is the discarded outcome of
the duration guard at line 280. -/
def finalizeSegment (minDuration : ℤ) (seg : SegmentAcc) : Option ActivitySegment :=
  let duration : ℤ := max 1 (pyRound (seg.end_time - seg.start_time))
  if duration < max 1 minDuration then none
  else
    let totalRaw := (seg.state_counts.map Prod.snd).sum
    let totalCounts := if totalRaw = 0 then 1 else totalRaw
    some
      { activity := seg.activity
      , start_time := seg.start_time
      , end_time := seg.end_time
      , duration_minutes := duration
      , state_distribution := seg.state_counts.map
          (fun kv => (kv.1, roundTo1 ((kv.2 : ℚ) / totalCounts * 100)))
      , dominant_state := dominantState seg.state_counts
      , focus_percentage := roundTo1
          (((lookupCount seg.state_counts "deep_focus" +
             lookupCount seg.state_counts "creative_flow" : ℕ) : ℚ) / totalCounts * 100)
      , average_confidence := roundTo2 (seg.confidence_total / ((max 1 seg.points_count : ℕ) : ℚ))
      , source := seg.activity_source }

def newSegment (p : NormalizedPoint) (minuteEnd : ℚ) : SegmentAcc :=
  { activity := p.activity
  , activity_source := p.activity_source
  , start_time := p.time
  , end_time := minuteEnd
  , state_counts := [(p.state, 1)]
  , confidence_total := p.confidence
  , points_count := 1 }

def extendSegment (seg : SegmentAcc) (p : NormalizedPoint) (minuteEnd : ℚ) : SegmentAcc :=
  { seg with
    end_time := minuteEnd
  , state_counts := bumpCount seg.state_counts p.state
  , confidence_total := seg.confidence_total + p.confidence
  , points_count := seg.points_count + 1 }

def optionToList : Option ActivitySegment → List ActivitySegment
  | none => []
  | some s => [s]

/-- The walk of lines 327-350: extend the running segment while the
activity label repeats, otherwise finalize it and open a new one; the
final segment is finalized after the loop. -/
def segmentLoop (endTime : ℚ) (minDuration : ℤ) :
    List NormalizedPoint → List ActivitySegment → Option SegmentAcc → List ActivitySegment
  | [], acc, none => acc
  | [], acc, some c => acc ++ optionToList (finalizeSegment minDuration c)
  | p :: rest, acc, none =>
      segmentLoop endTime minDuration rest acc
        (some (newSegment p (min (p.time + 1) endTime)))
  | p :: rest, acc, some c =>
      if p.activity = c.activity then
        segmentLoop endTime minDuration rest acc
          (some (extendSegment c p (min (p.time + 1) endTime)))
      else
        segmentLoop endTime minDuration rest
          (acc ++ optionToList (finalizeSegment minDuration c))
          (some (newSegment p (min (p.time + 1) endTime)))

/-- data_service.get_activities applied to the point sequence its
get_brain_data call drew. -/
def getActivities (endTime : ℚ) (minDuration : ℤ) (pts : List BrainDataPoint) :
    List ActivitySegment :=
  if pts = [] then []
  else segmentLoop endTime minDuration (sortByTime (pts.map normalizePoint)) [] none

theorem finalizeSegment_floor (minDuration : ℤ) (c : SegmentAcc) (s : ActivitySegment)
    (h : finalizeSegment minDuration c = some s) :
    max 1 minDuration ≤ s.duration_minutes := by
  simp only [finalizeSegment] at h
  split_ifs at h with hlt h0
  · simp only [Option.some.injEq] at h
    rw [← h]
    simpa using not_lt.mp hlt
  · simp only [Option.some.injEq] at h
    rw [← h]
    simpa using not_lt.mp hlt

theorem segmentLoop_floor (endTime : ℚ) (minDuration : ℤ) :
    ∀ (pts : List NormalizedPoint) (acc : List ActivitySegment) (cur : Option SegmentAcc),
      (∀ s ∈ acc, max 1 minDuration ≤ s.duration_minutes) →
      ∀ s ∈ segmentLoop endTime minDuration pts acc cur,
        max 1 minDuration ≤ s.duration_minutes := by
  intro pts
  induction pts with
  | nil =>
    intro acc cur hacc s hs
    cases cur with
    | none =>
      unfold segmentLoop at hs
      exact hacc s hs
    | some c =>
      unfold segmentLoop at hs
      rcases List.mem_append.mp hs with h | h
      · exact hacc s h
      · cases hf : finalizeSegment minDuration c with
        | none => rw [hf] at h; simp [optionToList] at h
        | some t =>
          rw [hf] at h
          simp only [optionToList, List.mem_singleton] at h
          rw [h]
          exact finalizeSegment_floor minDuration c t hf
  | cons p rest ih =>
    intro acc cur hacc s hs
    cases cur with
    | some c =>
      unfold segmentLoop at hs
      by_cases hact : p.activity = c.activity
      · rw [if_pos hact] at hs
        exact ih acc _ hacc s hs
      · rw [if_neg hact] at hs
        refine ih _ _ ?_ s hs
        intro t ht
        rcases List.mem_append.mp ht with h | h
        · exact hacc t h
        · cases hf : finalizeSegment minDuration c with
          | none => rw [hf] at h; simp [optionToList] at h
          | some u =>
            rw [hf] at h
            simp only [optionToList, List.mem_singleton] at h
            rw [h]
            exact finalizeSegment_floor minDuration c u hf
    | none =>
      unfold segmentLoop at hs
      exact ih acc _ hacc s hs

/-- A constant-activity minute point for the C7 examples. -/
def c7point (m : ℕ) : BrainDataPoint :=
  { time := (m : ℚ), delta := 0.2, theta := 0.2, alpha := 0.2, beta := 0.2, gamma := 0.2
  , state := "deep_focus", activity := some "coding", confidence := some 0.9 }

/-- A 3-minute constant-activity block. -/
def c7shortPoints : List BrainDataPoint := [c7point 0, c7point 1, c7point 2]

/-- C7 confirmed: every ActivitySegment returned by get_activities has
duration_minutes at least max(1, min_duration_minutes); in particular a
3-minute constant-activity block requested with min_duration_minutes=5
produces zero segments (the short segment is discarded, not merged). -/
theorem c7_segment_duration_floor :
    (∀ (endTime : ℚ) (minDuration : ℤ) (pts : List BrainDataPoint),
      ∀ s ∈ getActivities endTime minDuration pts,
        max 1 minDuration ≤ s.duration_minutes) ∧
    getActivities 10 5 c7shortPoints = [] := by
  constructor
  · intro endTime minDuration pts s hs
    unfold getActivities at hs
    split_ifs at hs with hne
    · simp at hs
    · exact segmentLoop_floor endTime minDuration _ [] none (by simp) s hs
  · have h1 : c7shortPoints.map normalizePoint =
        [{ time := 0, activity := "coding", activity_source := "scenario",
           state := "deep_focus", confidence := 0.9 },
         { time := 1, activity := "coding", activity_source := "scenario",
           state := "deep_focus", confidence := 0.9 },
         { time := 2, activity := "coding", activity_source := "scenario",
           state := "deep_focus", confidence := 0.9 }] := by
      simp [c7shortPoints, c7point, normalizePoint]
    have h2 : sortByTime (c7shortPoints.map normalizePoint) =
        c7shortPoints.map normalizePoint := by
      rw [h1]
      simp only [sortByTime, insertByTime, List.foldl]
      norm_num
    unfold getActivities
    rw [if_neg (by simp [c7shortPoints]), h2, h1]
    simp only [segmentLoop, newSegment, extendSegment, bumpCount, optionToList]
    norm_num [finalizeSegment, optionToList, min_def, max_def, pyRound]

theorem headI_mem_self {α : Type} [Inhabited α] (l : List α) (h : l ≠ []) : l.headI ∈ l := by
  cases l
  · exact absurd rfl h
  · exact List.mem_cons_self _ _

/-- A 5-minute constant-activity block for the C7 witness. -/
def c7witnessPoints : List BrainDataPoint :=
  [c7point 0, c7point 1, c7point 2, c7point 3, c7point 4]

/-- The segment get_activities reports for that block with
min_duration_minutes = 3. -/
def c7seg : ActivitySegment := (getActivities 60 3 c7witnessPoints).headI

/-- Witness for C7: the 5-minute block yields a segment whose duration
meets the floor. -/
theorem c7_segment_duration_floor_witness :
    c7seg ∈ getActivities 60 3 c7witnessPoints ∧ max 1 3 ≤ c7seg.duration_minutes := by
  have hne : getActivities 60 3 c7witnessPoints ≠ [] := by
    have h1 : c7witnessPoints.map normalizePoint =
        [{ time := 0, activity := "coding", activity_source := "scenario",
           state := "deep_focus", confidence := 0.9 },
         { time := 1, activity := "coding", activity_source := "scenario",
           state := "deep_focus", confidence := 0.9 },
         { time := 2, activity := "coding", activity_source := "scenario",
           state := "deep_focus", confidence := 0.9 },
         { time := 3, activity := "coding", activity_source := "scenario",
           state := "deep_focus", confidence := 0.9 },
         { time := 4, activity := "coding", activity_source := "scenario",
           state := "deep_focus", confidence := 0.9 }] := by
      simp [c7witnessPoints, c7point, normalizePoint]
    have h2 : sortByTime (c7witnessPoints.map normalizePoint) =
        c7witnessPoints.map normalizePoint := by
      rw [h1]
      simp only [sortByTime, insertByTime, List.foldl]
      norm_num
    unfold getActivities
    rw [if_neg (by simp [c7witnessPoints]), h2, h1]
    simp only [segmentLoop, newSegment, extendSegment, bumpCount, optionToList]
    norm_num [finalizeSegment, optionToList, min_def, max_def, pyRound]
  have hmem : c7seg ∈ getActivities 60 3 c7witnessPoints :=
    headI_mem_self _ hne
  exact ⟨hmem, c7_segment_duration_floor.1 60 3 c7witnessPoints c7seg hmem⟩

end NeuroInsights
